import Mathlib

/-!
Verification of the convolution benchmarking driver (`src/main.c`).

The driver `benchmark_convolution` orchestrates calls to the external
NNPACK engine (`nnp_convolution_inference`) and to an aligned allocator
(`malloc_with_alignment`, a wrapper over `posix_memalign`).  We embed the
driver as a function from its parameters together with an environment of
engine/allocator responses to a trace of observable events (size queries,
kernel-transform calls, allocations, frees, executions, error prints)
and a run result (normal return, or `exit(EXIT_FAILURE)`).

The arithmetic in `main` (output size derivation, output-tile size, tile
count) works on C `size_t` values; we embed it as `Nat` arithmetic
modulo `2 ^ 64`.
-/

namespace ConvBench

/-- The `enum nnp_status` values the driver distinguishes; every
engine-internal failure code is collapsed into `failure` with its code. -/
inductive nnp_status where
  | success
  | invalid_algorithm
  | unsupported_algorithm
  | unsupported_transform_strategy
  | failure (code : Int)
deriving DecidableEq, Repr

/-- `enum nnp_convolution_transform_strategy`. -/
inductive nnp_convolution_transform_strategy where
  | compute
  | precompute
  | reuse
deriving DecidableEq, Repr

/-- `enum nnp_convolution_algorithm`. -/
inductive nnp_convolution_algorithm where
  | auto
  | ft8x8
  | ft16x16
  | wt8x8
  | implicit_gemm
  | direct
deriving DecidableEq, Repr

/-- `struct nnp_size`. -/
structure nnp_size where
  width : Nat
  height : Nat
deriving DecidableEq, Repr

/-- `struct nnp_padding`. -/
structure nnp_padding where
  top : Nat
  right : Nat
  bottom : Nat
  left : Nat
deriving DecidableEq, Repr

/-- The shape/selector arguments of an `nnp_convolution_inference` call,
identifying the spec a query, transform or execution is issued for. -/
structure ConvSpec where
  algorithm : nnp_convolution_algorithm
  transform_strategy : nnp_convolution_transform_strategy
  input_channels : Nat
  output_channels : Nat
  input_size : nnp_size
  input_padding : nnp_padding
  kernel_size : nnp_size
  output_subsampling : nnp_size
deriving DecidableEq, Repr

/-- Arguments of `benchmark_convolution` (the data arrays and threadpool
carry no control-flow information and are omitted). -/
structure BenchParams where
  algorithm : nnp_convolution_algorithm
  transform_strategy : nnp_convolution_transform_strategy
  batch_size : Nat
  input_channels : Nat
  output_channels : Nat
  input_size : nnp_size
  input_padding : nnp_padding
  kernel_size : nnp_size
  output_subsampling : nnp_size
deriving DecidableEq, Repr

/-- The spec passed to an engine call when the driver's current transform
strategy is `ts`. -/
def querySpec (p : BenchParams) (ts : nnp_convolution_transform_strategy) : ConvSpec :=
  { algorithm := p.algorithm
    transform_strategy := ts
    input_channels := p.input_channels
    output_channels := p.output_channels
    input_size := p.input_size
    input_padding := p.input_padding
    kernel_size := p.kernel_size
    output_subsampling := p.output_subsampling }

/-- The two buffers the driver may allocate. -/
inductive Buffer where
  | transformed_kernel
  | workspace
deriving DecidableEq, Repr

/-- Which kernel pointer the final execution call receives
(`transformed_kernel == NULL ? kernel : transformed_kernel`). -/
inductive KernelArg where
  | raw
  | transformed
deriving DecidableEq, Repr

/-- Observable events of a run of `benchmark_convolution`. -/
inductive Event where
  /-- `nnp_convolution_inference` with all data pointers NULL and a size
  output slot: a size query; records the status and the value left in
  the size slot. -/
  | sizeQuery (spec : ConvSpec) (status : nnp_status) (sizeOut : Nat)
  /-- the kernel pre-transform call (line 71). -/
  | kernelTransform (spec : ConvSpec) (status : nnp_status)
  /-- a successful `malloc_with_alignment`. -/
  | alloc (buf : Buffer) (size : Nat) (alignment : Nat)
  /-- `free(ptr)`; `none` is `free(NULL)`, which releases nothing. -/
  | free (ptr : Option Buffer)
  /-- the final execution call (line 112). -/
  | execute (spec : ConvSpec) (kernel : KernelArg) (workspace : Option Buffer)
      (workspaceSizeSlot : Option Nat) (status : nnp_status)
  /-- an `fprintf(stderr, ...)` diagnostic. -/
  | errPrint (msg : String)
deriving DecidableEq, Repr

/-- How a run of `benchmark_convolution` ends. -/
inductive RunResult where
  | returned
  | exitFailure
deriving DecidableEq, Repr

/-- The responses of the external engine and the allocator for one run:
status and size-slot value of the transformed-kernel size query, whether
the transformed-kernel allocation succeeds, status of the kernel
transform call, status and size-slot value of the workspace size query,
whether the workspace allocation succeeds, and the status of the final
execution call. -/
structure Env where
  transformedKernelSizeQuery : nnp_status × Nat
  transformedKernelAllocOk : Bool
  kernelTransformStatus : nnp_status
  workspaceSizeQuery : nnp_status × Nat
  workspaceAllocOk : Bool
  executeStatus : nnp_status
deriving DecidableEq, Repr

/-- Lines 112-124: the final execution call, then `free(memory_block)`,
then `return`.  The kernel argument is the transformed kernel when that
buffer is non-NULL, the raw kernel otherwise; the size slot is NULL when
`memory_size == 0`.  The status of this call is recorded but never
inspected by the driver. -/
def benchmark_run_inference (p : BenchParams) (env : Env)
    (ts : nnp_convolution_transform_strategy) (tkAllocated : Bool)
    (memory_block : Option Buffer) (memory_size : Nat)
    (trace : List Event) : List Event × RunResult :=
  let kArg := if tkAllocated then KernelArg.transformed else KernelArg.raw
  let sizeSlot := if memory_size = 0 then none else some memory_size
  ((trace ++ [Event.execute (querySpec p ts) kArg memory_block sizeSlot env.executeStatus]
      ++ [Event.free memory_block]),
    RunResult.returned)

/-- Lines 104-110: allocate the workspace when `memory_size != 0`
(allocation failure is fatal), then fall through to the execution call. -/
def benchmark_workspace_alloc (p : BenchParams) (env : Env)
    (ts : nnp_convolution_transform_strategy) (tkAllocated : Bool)
    (memory_size : Nat) (trace : List Event) : List Event × RunResult :=
  if memory_size ≠ 0 then
    if env.workspaceAllocOk then
      benchmark_run_inference p env ts tkAllocated (some Buffer.workspace) memory_size
        (trace ++ [Event.alloc Buffer.workspace memory_size 64])
    else
      (trace ++ [Event.errPrint "Error: failed to allocate bytes for workspace"],
        RunResult.exitFailure)
  else
    benchmark_run_inference p env ts tkAllocated none memory_size trace

/-- Lines 85-103: query the workspace size; success continues,
invalid/unsupported algorithm returns, anything else is fatal. -/
def benchmark_workspace_query (p : BenchParams) (env : Env)
    (ts : nnp_convolution_transform_strategy) (tkAllocated : Bool)
    (trace : List Event) : List Event × RunResult :=
  let (st, memory_size) := env.workspaceSizeQuery
  let trace := trace ++ [Event.sizeQuery (querySpec p ts) st memory_size]
  match st with
  | nnp_status.success => benchmark_workspace_alloc p env ts tkAllocated memory_size trace
  | nnp_status.invalid_algorithm => (trace, RunResult.returned)
  | nnp_status.unsupported_algorithm => (trace, RunResult.returned)
  | _ =>
    (trace ++ [Event.errPrint "Error: failed to detect workspace memory size"],
      RunResult.exitFailure)

/-- Lines 64-83: when the strategy is still `precompute`, allocate the
transformed-kernel buffer (failure fatal), run the transform call (any
non-success fatal), and switch the strategy to `reuse`; otherwise fall
through to the workspace query. -/
def benchmark_kernel_transform (p : BenchParams) (env : Env)
    (ts : nnp_convolution_transform_strategy) (transformed_kernel_size : Nat)
    (trace : List Event) : List Event × RunResult :=
  if ts = nnp_convolution_transform_strategy.precompute then
    if env.transformedKernelAllocOk then
      let trace := trace ++ [Event.alloc Buffer.transformed_kernel transformed_kernel_size 64]
      let st := env.kernelTransformStatus
      let trace := trace ++ [Event.kernelTransform (querySpec p ts) st]
      if st = nnp_status.success then
        benchmark_workspace_query p env nnp_convolution_transform_strategy.reuse true trace
      else
        (trace ++ [Event.errPrint "Error: failed to pre-compute kernel transform"],
          RunResult.exitFailure)
    else
      (trace ++ [Event.errPrint "Error: failed to allocate bytes for transformed kernel"],
        RunResult.exitFailure)
  else
    benchmark_workspace_query p env ts false trace

/-- Lines 41-63 and the rest of `benchmark_convolution`: when the caller
requested `precompute`, query the transformed-kernel size; success and
invalid/unsupported algorithm fall through with the strategy unchanged
(`break`), unsupported transform strategy falls back to `compute`, and
any other status is fatal. -/
def benchmark_convolution (p : BenchParams) (env : Env) : List Event × RunResult :=
  if p.transform_strategy = nnp_convolution_transform_strategy.precompute then
    let (st, tks) := env.transformedKernelSizeQuery
    let trace := [Event.sizeQuery (querySpec p nnp_convolution_transform_strategy.precompute) st tks]
    match st with
    | nnp_status.success =>
      benchmark_kernel_transform p env nnp_convolution_transform_strategy.precompute tks trace
    | nnp_status.invalid_algorithm =>
      benchmark_kernel_transform p env nnp_convolution_transform_strategy.precompute tks trace
    | nnp_status.unsupported_algorithm =>
      benchmark_kernel_transform p env nnp_convolution_transform_strategy.precompute tks trace
    | nnp_status.unsupported_transform_strategy =>
      benchmark_kernel_transform p env nnp_convolution_transform_strategy.compute tks trace
    | nnp_status.failure _ =>
      (trace ++ [Event.errPrint "Error: failed to detect transformed kernel size"],
        RunResult.exitFailure)
  else
    benchmark_kernel_transform p env p.transform_strategy 0 []

/-- Number of successful allocations of buffer `b` in a trace. -/
def countAlloc (t : List Event) (b : Buffer) : Nat :=
  t.countP fun e => match e with
    | Event.alloc b' _ _ => b' == b
    | _ => false

/-- Number of releases of buffer `b` in a trace (`free(NULL)` releases
nothing). -/
def countFree (t : List Event) (b : Buffer) : Nat :=
  t.countP fun e => match e with
    | Event.free (some b') => b' == b
    | _ => false

/-- Whether the trace contains an execution call. -/
def hasExecute (t : List Event) : Bool :=
  t.any fun e => match e with
    | Event.execute _ _ _ _ _ => true
    | _ => false

/-- Whether the trace contains an execution call with a non-success
status. -/
def hasFailedExecute (t : List Event) : Bool :=
  t.any fun e => match e with
    | Event.execute _ _ _ _ st => st != nnp_status.success
    | _ => false

/-- Whether the trace contains a diagnostic print to stderr. -/
def hasErrPrint (t : List Event) : Bool :=
  t.any fun e => match e with
    | Event.errPrint _ => true
    | _ => false

/-- Whether the trace contains a kernel-transform call. -/
def hasKernelTransform (t : List Event) : Bool :=
  t.any fun e => match e with
    | Event.kernelTransform _ _ => true
    | _ => false

/-- Whether the trace contains a workspace size query: a size query whose
spec does not carry the `precompute` strategy (the transformed-kernel
size query always carries `precompute`; the workspace query never does). -/
def hasWorkspaceQuery (t : List Event) : Bool :=
  t.any fun e => match e with
    | Event.sizeQuery s _ _ => s.transform_strategy != nnp_convolution_transform_strategy.precompute
    | _ => false

/-- Every execution call in the trace uses the raw kernel. -/
def allExecRaw (t : List Event) : Bool :=
  t.all fun e => match e with
    | Event.execute _ k _ _ _ => k == KernelArg.raw
    | _ => true

/-- Every execution call in the trace carries the `compute` strategy. -/
def allExecCompute (t : List Event) : Bool :=
  t.all fun e => match e with
    | Event.execute s _ _ _ _ =>
        s.transform_strategy == nnp_convolution_transform_strategy.compute
    | _ => true

/-- Every execution call in the trace has an absent workspace pointer and
an absent size slot. -/
def allExecNoWorkspace (t : List Event) : Bool :=
  t.all fun e => match e with
    | Event.execute _ _ w s _ => w == none && s == none
    | _ => true

/-- Some earlier event is a successful size query whose reported size is
`sz`. -/
def hasSuccessQueryOfSize (seen : List Event) (sz : Nat) : Bool :=
  seen.any fun e => match e with
    | Event.sizeQuery _ st s => st == nnp_status.success && s == sz
    | _ => false

/-- Every allocation in the trace is preceded by a successful size query
reporting the allocated size.  This is a consequence of the claimed
discipline (a successful identical-spec query before each allocation),
so its failure refutes the stronger claim as well. -/
def allocsQueriedFrom : List Event → List Event → Bool
  | _, [] => true
  | seen, e :: rest =>
    (match e with
      | Event.alloc _ sz _ => hasSuccessQueryOfSize seen sz
      | _ => true)
    && allocsQueriedFrom (seen ++ [e]) rest

/-- Every allocation of the trace is preceded by a successful size query
reporting the allocated size. -/
def allocsQueried (t : List Event) : Bool :=
  allocsQueriedFrom [] t

/-! `main`'s geometry arithmetic, on `size_t` (64-bit unsigned) values. -/

/-- Modulus of C `size_t` arithmetic. -/
def U64 : Nat := 2 ^ 64

/-- `size_t` addition. -/
def wadd (a b : Nat) : Nat := (a + b) % U64

/-- `size_t` subtraction (wrapping). -/
def wsub (a b : Nat) : Nat := (a + (U64 - b % U64)) % U64

/-- `size_t` multiplication. -/
def wmul (a b : Nat) : Nat := a * b % U64

/-- One axis of lines 188-191:
`(padding_before + input_dim + padding_after - kernel_dim) / stride_dim + 1`
in `size_t` arithmetic. -/
def output_dim (padBefore inDim padAfter kDim strideDim : Nat) : Nat :=
  wadd (wsub (wadd (wadd padBefore inDim) padAfter) kDim / strideDim) 1

/-- `struct options` (lines 127-137). -/
structure options where
  batch_size : Nat
  input_channels : Nat
  output_channels : Nat
  input_size : nnp_size
  input_padding : Nat
  kernel_size : nnp_size
  output_subsampling : nnp_size
  algorithm : nnp_convolution_algorithm
  transform_strategy : nnp_convolution_transform_strategy
deriving DecidableEq, Repr

/-- `parse_options` (lines 156-170) ignores `argv` and always returns the
defaults. -/
def parse_options : options :=
  { batch_size := 1
    input_channels := 0
    output_channels := 0
    input_size := { width := 0, height := 0 }
    input_padding := 0
    kernel_size := { width := 0, height := 0 }
    output_subsampling := { width := 1, height := 1 }
    algorithm := nnp_convolution_algorithm.auto
    transform_strategy := nnp_convolution_transform_strategy.compute }

/-- Lines 184 and 188-191: the padding struct is uniform
(`options.input_padding` on all four sides) and the output size is
derived per axis by `output_dim`. -/
def derived_output_size (opts : options) : nnp_size :=
  { width := output_dim opts.input_padding opts.input_size.width opts.input_padding
      opts.kernel_size.width opts.output_subsampling.width
    height := output_dim opts.input_padding opts.input_size.height opts.input_padding
      opts.kernel_size.height opts.output_subsampling.height }

/-- Lines 201-204, one axis: `tile_size.dim - kernel_size.dim + 1` in
`size_t` arithmetic. -/
def output_tile_dim (tileDim kDim : Nat) : Nat :=
  wadd (wsub tileDim kDim) 1

/-- Lines 205-207, one axis:
`output_size.dim / output_tile_size.dim + !!(output_size.dim % output_tile_size.dim)`. -/
def tile_count_axis (outDim outTileDim : Nat) : Nat :=
  wadd (outDim / outTileDim) (if outDim % outTileDim ≠ 0 then 1 else 0)

/-- Lines 205-207: total tile count, the product across the two axes. -/
def tile_count (output_size output_tile_size : nnp_size) : Nat :=
  wmul (tile_count_axis output_size.height output_tile_size.height)
    (tile_count_axis output_size.width output_tile_size.width)

/-- The output size `main` derives from the options `parse_options`
returns. -/
def main_output_size : nnp_size :=
  derived_output_size parse_options

/-- The tile geometry `main` computes (lines 201-207) as a function of
the value the uninitialized local `tile_size` happens to hold: the
output-tile size and the tile count.  `tile_size` is declared at line
192 and never assigned before these reads, so the parameter is
unconstrained. -/
def main_tile_geometry (tile_size : nnp_size) : nnp_size × Nat :=
  let output_tile_size : nnp_size :=
    { height := output_tile_dim tile_size.height parse_options.kernel_size.height
      width := output_tile_dim tile_size.width parse_options.kernel_size.width }
  (output_tile_size, tile_count main_output_size output_tile_size)

/-! Concrete runs used to exhibit the divergences between the code and
the specified behavior. -/

/-- A representative benchmark spec requesting the `precompute` strategy. -/
def demoParams : BenchParams :=
  { algorithm := nnp_convolution_algorithm.wt8x8
    transform_strategy := nnp_convolution_transform_strategy.precompute
    batch_size := 1
    input_channels := 16
    output_channels := 16
    input_size := { width := 5, height := 5 }
    input_padding := { top := 0, right := 0, bottom := 0, left := 0 }
    kernel_size := { width := 3, height := 3 }
    output_subsampling := { width := 1, height := 1 }
  }

/-- An engine that accepts everything: both size queries succeed (sizes
512 and 1024), both allocations succeed, the transform and the execution
succeed. -/
def envAllSuccess : Env :=
  { transformedKernelSizeQuery := (nnp_status.success, 512)
    transformedKernelAllocOk := true
    kernelTransformStatus := nnp_status.success
    workspaceSizeQuery := (nnp_status.success, 1024)
    workspaceAllocOk := true
    executeStatus := nnp_status.success }

/-- An engine whose final execution call fails with an engine-internal
code while everything before it succeeds. -/
def envExecFails : Env :=
  { transformedKernelSizeQuery := (nnp_status.success, 512)
    transformedKernelAllocOk := true
    kernelTransformStatus := nnp_status.success
    workspaceSizeQuery := (nnp_status.success, 1024)
    workspaceAllocOk := true
    executeStatus := nnp_status.failure 5 }

/-- An engine that rejects the algorithm: both the transformed-kernel
size query and the transform call report `invalid_algorithm` (leaving
the size slot at its initial 0). -/
def envInvalidAlgorithm : Env :=
  { transformedKernelSizeQuery := (nnp_status.invalid_algorithm, 0)
    transformedKernelAllocOk := true
    kernelTransformStatus := nnp_status.invalid_algorithm
    workspaceSizeQuery := (nnp_status.invalid_algorithm, 0)
    workspaceAllocOk := true
    executeStatus := nnp_status.invalid_algorithm }

/-- The spec of C7's concrete scenario: input 5×5, kernel 3×3, padding
0, stride 1. -/
def c7_options : options :=
  { parse_options with
    input_channels := 16
    output_channels := 16
    input_size := { width := 5, height := 5 }
    kernel_size := { width := 3, height := 3 } }

/-! Theorems settling the claims. -/

/-- The code's remainder-bump formula for a tile count equals ceiling
division. -/
theorem ceil_div_bump (d t : Nat) (ht : 0 < t) :
    d / t + (if d % t ≠ 0 then 1 else 0) = (d + t - 1) / t := by
  rw [Nat.add_sub_assoc ht, Nat.add_div ht,
    Nat.div_eq_of_lt (show t - 1 < t by omega),
    Nat.mod_eq_of_lt (show t - 1 < t by omega)]
  by_cases h : d % t = 0
  · rw [h, if_neg (by decide), if_neg (show ¬ t ≤ 0 + (t - 1) by omega)]
  · rw [if_pos h, if_pos (show t ≤ d % t + (t - 1) by omega)]

/-- C7: for each spatial axis the derived output size equals
`(padding_before + input_dim + padding_after - kernel_dim) / stride_dim + 1`
(over the mathematical naturals, provided the spec is valid: positive
stride, kernel no larger than the padded input, and no `size_t`
overflow), and in particular a 5×5 input with a 3×3 kernel, padding 0
and stride 1 yields a 3×3 output. -/
theorem C7_output_size_formula :
    (∀ padBefore inDim padAfter kDim strideDim : Nat,
      0 < strideDim →
      kDim ≤ padBefore + inDim + padAfter →
      padBefore + inDim + padAfter + 1 < U64 →
      output_dim padBefore inDim padAfter kDim strideDim
        = (padBefore + inDim + padAfter - kDim) / strideDim + 1) ∧
    derived_output_size c7_options = { width := 3, height := 3 } := by
  constructor
  · intro pb i pa k s hs hk hlt
    unfold output_dim wadd wsub
    rw [Nat.mod_eq_of_lt (show pb + i < U64 by omega),
      Nat.mod_eq_of_lt (show pb + i + pa < U64 by omega),
      Nat.mod_eq_of_lt (show k < U64 by omega),
      show pb + i + pa + (U64 - k) = U64 + (pb + i + pa - k) by omega,
      Nat.add_mod_left,
      Nat.mod_eq_of_lt (show pb + i + pa - k < U64 by omega)]
    have hq : (pb + i + pa - k) / s ≤ pb + i + pa - k := Nat.div_le_self _ _
    exact Nat.mod_eq_of_lt (by omega)
  · decide

/-- C7 witness: the general formula applied at padding 0, input 5,
kernel 3, stride 1. -/
theorem C7_output_size_formula_witness :
    0 < 1 ∧ (3:Nat) ≤ 0 + 5 + 0 ∧ (0:Nat) + 5 + 0 + 1 < U64 ∧
    output_dim 0 5 0 3 1 = (0 + 5 + 0 - 3) / 1 + 1 :=
  ⟨by decide, by decide, by decide,
    C7_output_size_formula.1 0 5 0 3 1 (by decide) (by decide) (by decide)⟩

/-- C8: the effective output-tile size per axis is
`tile_dim - kernel_dim + 1` (over the naturals when it does not wrap),
the per-axis tile count computed by the remainder-bump formula equals
ceiling division `(output_dim + tile - 1) / tile` for positive
dimensions, the total tile count is the product across the two axes, and
the concrete instances: output 10 with tile 4 gives 3, output 8 with
tile 4 gives 2. -/
theorem C8_tile_geometry :
    (∀ tileDim kDim : Nat,
      kDim ≤ tileDim → tileDim < U64 → tileDim - kDim + 1 < U64 →
      output_tile_dim tileDim kDim = tileDim - kDim + 1) ∧
    (∀ outDim outTileDim : Nat,
      0 < outDim → 0 < outTileDim → outDim < U64 →
      tile_count_axis outDim outTileDim = (outDim + outTileDim - 1) / outTileDim) ∧
    (∀ os ots : nnp_size,
      tile_count_axis os.height ots.height * tile_count_axis os.width ots.width < U64 →
      tile_count os ots
        = tile_count_axis os.height ots.height * tile_count_axis os.width ots.width) ∧
    tile_count_axis 10 4 = 3 ∧ tile_count_axis 8 4 = 2 := by
  refine ⟨?_, ?_, ?_, by decide, by decide⟩
  · intro t k hk htU h1U
    unfold output_tile_dim wadd wsub
    rw [Nat.mod_eq_of_lt (show k < U64 by omega),
      show t + (U64 - k) = U64 + (t - k) by omega,
      Nat.add_mod_left,
      Nat.mod_eq_of_lt (show t - k < U64 by omega)]
    exact Nat.mod_eq_of_lt h1U
  · intro d t hd ht hdU
    have hwrap : d / t + (if d % t ≠ 0 then 1 else 0) < U64 := by
      by_cases h : d % t = 0
      · rw [h, if_neg (by decide)]
        have := Nat.div_le_self d t
        omega
      · rw [if_pos h]
        have ht1 : 1 < t := by
          rcases Nat.lt_or_ge t 2 with h2 | h2
          · exfalso
            have : t = 1 := by omega
            subst this
            exact h (Nat.mod_one d)
          · omega
        have := Nat.div_lt_self hd ht1
        omega
    unfold tile_count_axis wadd
    rw [Nat.mod_eq_of_lt hwrap, ceil_div_bump d t ht]
  · intro os ots hlt
    unfold tile_count wmul
    exact Nat.mod_eq_of_lt hlt

/-- C8 witness: the general statements applied at tile 8 with kernel 3
and at output 10 with tile 4. -/
theorem C8_tile_geometry_witness :
    (3:Nat) ≤ 8 ∧ (8:Nat) < U64 ∧ (8:Nat) - 3 + 1 < U64 ∧
    output_tile_dim 8 3 = 8 - 3 + 1 ∧
    0 < 10 ∧ 0 < 4 ∧ (10:Nat) < U64 ∧
    tile_count_axis 10 4 = (10 + 4 - 1) / 4 :=
  ⟨by decide, by decide, by decide,
    C8_tile_geometry.1 8 3 (by decide) (by decide) (by decide),
    by decide, by decide, by decide,
    C8_tile_geometry.2.1 10 4 (by decide) (by decide) (by decide)⟩

/-- C1: the claim states that every buffer the Driver allocates is
released exactly once before the function returns, on every exit path.
The code refutes it: on a fully successful `precompute` run the driver
allocates the transformed-kernel buffer once but the only release in the
function is `free(memory_block)` (line 122), so the run returns normally
with the transformed-kernel buffer allocated once and released zero
times — a leak on the main success path (and on every other path). -/
theorem C1_transformed_kernel_never_released :
    countAlloc (benchmark_convolution demoParams envAllSuccess).1 Buffer.transformed_kernel = 1 ∧
    countFree (benchmark_convolution demoParams envAllSuccess).1 Buffer.transformed_kernel = 0 ∧
    (benchmark_convolution demoParams envAllSuccess).2 = RunResult.returned := by
  decide

/-- C2: the claim states that any unhandled non-success status from a
query or execute call — in particular from the final execution call —
prints a diagnostic and terminates with a nonzero exit status.  The code
refutes it at the final execution call: its status (here an
engine-internal failure code 5) is discarded (lines 112-120 assign it to
nothing), no diagnostic is printed, and the function returns normally. -/
theorem C2_execute_failure_not_fatal :
    (benchmark_convolution demoParams envExecFails).2 = RunResult.returned ∧
    hasFailedExecute (benchmark_convolution demoParams envExecFails).1 = true ∧
    hasErrPrint (benchmark_convolution demoParams envExecFails).1 = false := by
  decide

/-- C3: the claim states that when `precompute` is requested and the
transformed-kernel size query reports invalid/unsupported algorithm, the
driver aborts without error, with no further allocation, no transform
step and no execution.  The code refutes it: the `invalid_algorithm`
case of the first `switch` (lines 52-54) merely breaks, leaving
`transform_strategy == precompute`, so the driver still allocates a
transformed-kernel buffer, still invokes the transform step, and then
exits with `EXIT_FAILURE` when the transform also fails — an error exit
instead of the specified clean no-op return. -/
theorem C3_not_applicable_query_not_noop :
    countAlloc (benchmark_convolution demoParams envInvalidAlgorithm).1
      Buffer.transformed_kernel = 1 ∧
    hasKernelTransform (benchmark_convolution demoParams envInvalidAlgorithm).1 = true ∧
    hasErrPrint (benchmark_convolution demoParams envInvalidAlgorithm).1 = true ∧
    (benchmark_convolution demoParams envInvalidAlgorithm).2 = RunResult.exitFailure := by
  decide

/-- C9: the claim states that every allocate call is preceded by a
successful size query for it.  The code refutes it on the same path as
C3: after the transformed-kernel size query fails with
`invalid_algorithm`, the driver nevertheless allocates the
transformed-kernel buffer, so that allocation has no preceding
successful size query (of any spec, let alone an identical one). -/
theorem C9_alloc_without_successful_query :
    allocsQueried (benchmark_convolution demoParams envInvalidAlgorithm).1 = false := by
  decide

/-- An engine that rejects the `precompute` strategy at the
transformed-kernel size query and accepts everything else. -/
def envUnsupportedStrategy : Env :=
  { transformedKernelSizeQuery := (nnp_status.unsupported_transform_strategy, 0)
    transformedKernelAllocOk := true
    kernelTransformStatus := nnp_status.success
    workspaceSizeQuery := (nnp_status.success, 256)
    workspaceAllocOk := true
    executeStatus := nnp_status.success }

/-- An engine that reports `invalid_algorithm` at the workspace size
query. -/
def envWorkspaceInvalid : Env :=
  { transformedKernelSizeQuery := (nnp_status.success, 512)
    transformedKernelAllocOk := true
    kernelTransformStatus := nnp_status.success
    workspaceSizeQuery := (nnp_status.invalid_algorithm, 0)
    workspaceAllocOk := true
    executeStatus := nnp_status.success }

/-- An engine whose workspace size query succeeds with size 0. -/
def envWorkspaceZero : Env :=
  { transformedKernelSizeQuery := (nnp_status.success, 512)
    transformedKernelAllocOk := true
    kernelTransformStatus := nnp_status.success
    workspaceSizeQuery := (nnp_status.success, 0)
    workspaceAllocOk := true
    executeStatus := nnp_status.success }

set_option maxHeartbeats 1000000 in
/-- C4: if the caller requested `precompute` and the transformed-kernel
size query returns `unsupported_transform_strategy`, the driver falls
back to the `compute` strategy: for every run, no transformed-kernel
buffer is ever allocated, and every execution call receives the raw
kernel and carries the `compute` strategy. -/
theorem C4_unsupported_strategy_fallback (p : BenchParams) (env : Env)
    (hp : p.transform_strategy = nnp_convolution_transform_strategy.precompute)
    (hq : env.transformedKernelSizeQuery.1
      = nnp_status.unsupported_transform_strategy) :
    countAlloc (benchmark_convolution p env).1 Buffer.transformed_kernel = 0 ∧
    allExecRaw (benchmark_convolution p env).1 = true ∧
    allExecCompute (benchmark_convolution p env).1 = true := by
  obtain ⟨⟨tst, tsz⟩, ta, kst, ⟨wst, wsz⟩, wa, ex⟩ := env
  dsimp only at hq
  subst hq
  cases wst <;> cases wa <;> by_cases hw : wsz = 0 <;>
    simp [benchmark_convolution, benchmark_kernel_transform, benchmark_workspace_query,
      benchmark_workspace_alloc, benchmark_run_inference, hp, hw,
      countAlloc, allExecRaw, allExecCompute, querySpec]

/-- C4 witness: the fallback applied to a concrete `precompute` request
against an engine that rejects the strategy. -/
theorem C4_unsupported_strategy_fallback_witness :
    demoParams.transform_strategy = nnp_convolution_transform_strategy.precompute ∧
    envUnsupportedStrategy.transformedKernelSizeQuery.1
      = nnp_status.unsupported_transform_strategy ∧
    (countAlloc (benchmark_convolution demoParams envUnsupportedStrategy).1
        Buffer.transformed_kernel = 0 ∧
      allExecRaw (benchmark_convolution demoParams envUnsupportedStrategy).1 = true ∧
      allExecCompute (benchmark_convolution demoParams envUnsupportedStrategy).1 = true) :=
  ⟨rfl, rfl, C4_unsupported_strategy_fallback demoParams envUnsupportedStrategy rfl rfl⟩

set_option maxHeartbeats 1000000 in
/-- C5: if the workspace size query reports `invalid_algorithm` or
`unsupported_algorithm`, no run of the driver contains an execution
call, and any run that actually reaches the workspace query returns
normally.  (A workspace query is recognizable in the trace as a size
query whose spec does not carry the `precompute` strategy.) -/
theorem C5_not_applicable_workspace_no_execute (p : BenchParams) (env : Env)
    (hq : env.workspaceSizeQuery.1 = nnp_status.invalid_algorithm ∨
      env.workspaceSizeQuery.1 = nnp_status.unsupported_algorithm) :
    hasExecute (benchmark_convolution p env).1 = false ∧
    (hasWorkspaceQuery (benchmark_convolution p env).1 = true →
      (benchmark_convolution p env).2 = RunResult.returned) := by
  obtain ⟨alg, pts, b, ic, oc, isz, ip, ks, oss⟩ := p
  obtain ⟨⟨tst, tsz⟩, ta, kst, ⟨wst, wsz⟩, wa, ex⟩ := env
  dsimp only at hq
  rcases hq with h | h <;> subst h <;> cases pts <;> cases tst <;> cases ta <;> cases kst <;>
    simp [benchmark_convolution, benchmark_kernel_transform, benchmark_workspace_query,
      benchmark_workspace_alloc, benchmark_run_inference,
      hasExecute, hasWorkspaceQuery, querySpec]

/-- C5 witness: a concrete run whose workspace query reports
`invalid_algorithm` has no execution call and returns normally. -/
theorem C5_not_applicable_workspace_no_execute_witness :
    (envWorkspaceInvalid.workspaceSizeQuery.1 = nnp_status.invalid_algorithm ∨
      envWorkspaceInvalid.workspaceSizeQuery.1 = nnp_status.unsupported_algorithm) ∧
    (hasExecute (benchmark_convolution demoParams envWorkspaceInvalid).1 = false ∧
      (hasWorkspaceQuery (benchmark_convolution demoParams envWorkspaceInvalid).1 = true →
        (benchmark_convolution demoParams envWorkspaceInvalid).2 = RunResult.returned)) :=
  ⟨Or.inl rfl,
    C5_not_applicable_workspace_no_execute demoParams envWorkspaceInvalid (Or.inl rfl)⟩

set_option maxHeartbeats 1000000 in
/-- C6: if the workspace size query succeeds with size 0, no workspace
allocation ever occurs and every execution call receives an absent
(NULL) workspace pointer and an absent size slot. -/
theorem C6_zero_workspace_absent (p : BenchParams) (env : Env)
    (hq : env.workspaceSizeQuery = (nnp_status.success, 0)) :
    countAlloc (benchmark_convolution p env).1 Buffer.workspace = 0 ∧
    allExecNoWorkspace (benchmark_convolution p env).1 = true := by
  obtain ⟨alg, pts, b, ic, oc, isz, ip, ks, oss⟩ := p
  obtain ⟨⟨tst, tsz⟩, ta, kst, ⟨wst, wsz⟩, wa, ex⟩ := env
  rw [Prod.mk.injEq] at hq
  obtain ⟨hst, hsz⟩ := hq
  subst hst
  subst hsz
  cases pts <;> cases tst <;> cases ta <;> cases kst <;>
    simp [benchmark_convolution, benchmark_kernel_transform, benchmark_workspace_query,
      benchmark_workspace_alloc, benchmark_run_inference,
      countAlloc, allExecNoWorkspace, querySpec]

/-- C6 witness: a concrete run whose workspace query succeeds with size
0 allocates no workspace and executes with absent workspace arguments. -/
theorem C6_zero_workspace_absent_witness :
    envWorkspaceZero.workspaceSizeQuery = (nnp_status.success, 0) ∧
    (countAlloc (benchmark_convolution demoParams envWorkspaceZero).1 Buffer.workspace = 0 ∧
      allExecNoWorkspace (benchmark_convolution demoParams envWorkspaceZero).1 = true) :=
  ⟨rfl, C6_zero_workspace_absent demoParams envWorkspaceZero rfl⟩

/-- C10: `main` reads the never-assigned local `tile_size` (declared
line 192) to compute the output-tile size and the tile count (lines
201-207); modelling that indeterminate value as a free parameter, the
computed tile geometry genuinely depends on it: two different values of
`tile_size` give different geometry. -/
theorem C10_tile_geometry_depends_on_tile_size :
    ∃ t₁ t₂ : nnp_size, main_tile_geometry t₁ ≠ main_tile_geometry t₂ :=
  ⟨{ width := 0, height := 0 }, { width := 1, height := 1 }, by decide⟩

end ConvBench
